import Mathlib

/-!
Zone lifecycle handlers of `caphandler/zones.go`.

A shallow embedding of the zone handlers of the Cisco ACI plugin.

* The package-level map `capdata.ZoneDataStore` is an association list that is
  passed in and returned explicitly.
* Every pointer of the Go code that may be `nil` is an `Option`; a `nil` slice
  is `none`, a non-nil slice (also an empty one) is `some xs`.
* A run-time panic of the Go code (nil dereference, index or slice bound out of
  range) is an explicit `Fault`.
* The fabric controller (`caputilities.GetConnection()`) is an oracle `Adapter`
  giving the outcome of each operation; every operation the code invokes is
  appended to a call trace.
* The identifier drawn from `uuid.NewV4()` is an input of `CreateZone`.
-/

set_option linter.unusedVariables false

namespace caphandler

/-! ## Data model (`model.Link`, `model.ZoneLinks`, `model.Zone`, `capdata.ZoneData`) -/

/-- Go `model.Link`: a reference to another resource by URI. -/
structure Link where
  Oid : String
deriving DecidableEq, Repr

/-- Go slice of links: `none` is the `nil` slice. -/
abbrev LinkSlice := Option (List Link)

/-- Go `len(s)`; the length of a `nil` slice is zero. -/
def LinkSlice.len : LinkSlice → Nat
  | none => 0
  | some xs => xs.length

/-- Go run-time panics that the handlers can raise. -/
inductive Fault where
  | nilPointerDereference
  | indexOutOfRange
  | sliceBoundsOutOfRange
deriving DecidableEq, Repr

/-- Go `model.ZoneLinks`, restricted to the fields the handlers read or write. -/
structure ZoneLinks where
  ContainedByZones : LinkSlice
  ContainedByZonesCount : Int
  ContainsZones : LinkSlice
  ContainsZonesCount : Int
deriving DecidableEq, Repr

/-- Go `model.Status`. -/
structure Status where
  State : String
  Health : String
deriving DecidableEq, Repr

/-- Go `model.Zone`, restricted to the fields the handlers read or write. -/
structure Zone where
  ODataContext : String
  ODataID : String
  ODataType : String
  ID : String
  Name : String
  Description : String
  ZoneType : String
  Links : Option ZoneLinks
  Status : Option Status
deriving DecidableEq, Repr

/-- Go `capdata.ZoneData`. -/
structure ZoneData where
  FabricID : String
  Zone : Zone
deriving DecidableEq, Repr

/-- Go `capdata.ZoneDataStore`: a map from resource URI to zone record, kept as
an association list with at most one entry per key. -/
abbrev Store := List (String × ZoneData)

/-- Map lookup `store[key]` with the `ok` flag as `Option`. -/
def Store.get : Store → String → Option ZoneData
  | [], _ => none
  | (k, v) :: rest, key => if k = key then some v else Store.get rest key

/-- Map assignment `store[key] = v`. -/
def Store.put : Store → String → ZoneData → Store
  | [], key, v => [(key, v)]
  | (k, w) :: rest, key, v =>
    if k = key then (k, v) :: rest else (k, w) :: Store.put rest key v

/-- Map deletion `delete(store, key)`. -/
def Store.del : Store → String → Store
  | [], _ => []
  | (k, w) :: rest, key =>
    if k = key then Store.del rest key else (k, w) :: Store.del rest key

/-! ## Responses -/

/-- The error classes of `response.*` used by the handlers. -/
inductive ErrorClass where
  | ResourceNotFound
  | MalformedJSON
  | PropertyMissing
  | ResourceAlreadyExists
  | ResourceCannotBeDeleted
  | GeneralError
deriving DecidableEq, Repr

/-- What a handler hands to `ctx.JSON` or returns as `resp`. The error envelope
built by `updateErrorResponse` is kept as its three arguments. -/
inductive Body where
  | error (code : ErrorClass) (msg : String) (args : List String)
  | zone (z : Zone)
  | int (n : Nat)
  | adapterObject
deriving DecidableEq, Repr

/-- What the handler wrote to the `iris.Context`: the status code when
`ctx.StatusCode` was called, the `Location` header when set, and the JSON body
when `ctx.JSON` was called. -/
structure Response where
  StatusCode : Option Nat
  Location : Option String
  JSON : Option Body
deriving DecidableEq, Repr

/-- How a handler ended: it returned after writing a response, or it panicked. -/
inductive Completion where
  | returned (r : Response)
  | panicked (f : Fault)
deriving DecidableEq, Repr

/-! ## Fabric controller adapter -/

/-- Result of a listing operation: the names of the listed objects and the
error, as Go returns both. -/
structure ListResult where
  names : List String
  err : Option String

/-- Outcomes of the fabric controller operations for one request. A creation or
deletion yields `none` on success and `some msg` on error. -/
structure Adapter where
  ListTenant : ListResult
  CreateTenant : String → String → Option String
  DeleteTenant : String → Option String
  ListApplicationProfile : String → ListResult
  ListVRF : String → ListResult
  CreateApplicationProfile : String → String → String → Option String
  CreateVRF : String → String → String → Option String
  ListBridgeDomain : String → ListResult
  CreateBridgeDomain : String → String → String → Option String

/-- One invocation of a fabric controller operation with its arguments. -/
inductive AdapterCall where
  | ListTenant
  | CreateTenant (name description : String)
  | DeleteTenant (name : String)
  | ListApplicationProfile (tenant : String)
  | ListVRF (tenant : String)
  | CreateApplicationProfile (name tenant description : String)
  | CreateVRF (name tenant description : String)
  | ListBridgeDomain (tenant : String)
  | CreateBridgeDomain (name tenant description : String)
deriving DecidableEq, Repr

/-- Go `strings.Contains(s, sub)`. -/
def stringsContains (s sub : String) : Bool :=
  decide (sub.data <:+: s.data)

/-- The test `err != nil && !strings.Contains(err.Error(), "Object may not exists")`. -/
def fatalListError : Option String → Option String
  | none => none
  | some e => if stringsContains e "Object may not exists" then none else some e

/-- What a handler leaves behind: the zone store, the adapter calls it made in
order, and how it ended. -/
structure Outcome where
  ZoneDataStore : Store
  calls : List AdapterCall
  completion : Completion
deriving DecidableEq, Repr

/-! ## Persisting a zone and maintaining the parent's links -/

/-- Go `saveZoneData`: fills in the identity and status fields, recomputes
`ContainedByZonesCount` when the request carries a non-nil `ContainedByZones`,
and stores the record under `uri/defaultZoneID`. Returns the new store and the
zone as saved. -/
def saveZoneData (store : Store) (defaultZoneID uri fabricID : String) (zone : Zone) :
    Store × Zone :=
  let links : Option ZoneLinks :=
    match zone.Links with
    | none => none
    | some l =>
      match l.ContainedByZones with
      | none => some l
      | some xs => some { l with ContainedByZonesCount := (xs.length : Int) }
  let saved : Zone :=
    { zone with
      ID := defaultZoneID
      ODataContext := "/ODIM/v1/$metadata#Zone.Zone"
      ODataType := "#Zone.v1_4_0.Zone"
      ODataID := uri ++ "/" ++ defaultZoneID
      Status := some { State := "Enabled", Health := "OK" }
      Links := links }
  (store.put saved.ODataID { FabricID := fabricID, Zone := saved }, saved)

/-- Go `updateZoneData`: appends a link to `zone.ODataID` to the parent's
`ContainsZones`. The count is assigned only in the branch where the parent's
`ContainsZones` was `nil`. Dereferencing a missing parent panics. -/
def updateZoneData (store : Store) (defaultZoneLink : String) (zone : Zone) :
    Except Fault Store :=
  match store.get defaultZoneLink with
  | none => .error Fault.nilPointerDereference
  | some defaultZoneStore =>
    let defaultZoneData := defaultZoneStore.Zone
    let links : ZoneLinks :=
      match defaultZoneData.Links with
      | none =>
        { ContainedByZones := none, ContainedByZonesCount := 0,
          ContainsZones := none, ContainsZonesCount := 0 }
      | some l => l
    let link : Link := { Oid := zone.ODataID }
    let links' : ZoneLinks :=
      match links.ContainsZones with
      | none => { links with ContainsZones := some [link], ContainsZonesCount := 1 }
      | some xs => { links with ContainsZones := some (xs ++ [link]) }
    .ok (store.put defaultZoneLink
      { defaultZoneStore with Zone := { defaultZoneData with Links := some links' } })

/-- The loop `for index, value := range links` of `deleteZoneOfZone`: the index
of the first link whose `Oid` equals `uri`, counted from `index`. -/
def searchLink (uri : String) : List Link → Nat → Option Nat
  | [], _ => none
  | value :: rest, index =>
    if value.Oid = uri then some index else searchLink uri rest (index + 1)

/-- The value of `parentZoneIndex` after the loop: the variable is declared
without initialiser, so it stays `0` when no link matches. -/
def parentZoneIndex (links : LinkSlice) (uri : String) : Nat :=
  match links with
  | none => 0
  | some xs => (searchLink uri xs 0).getD 0

/-- Go `append(links[:i], links[i+1:]...)`; the slice expression `links[i+1:]`
panics when `i + 1 > len(links)`. -/
def removeAt (links : LinkSlice) (i : Nat) : Except Fault LinkSlice :=
  if i + 1 > links.len then .error Fault.sliceBoundsOutOfRange
  else
    match links with
    | none => .ok none
    | some xs => .ok (some (xs.take i ++ xs.drop (i + 1)))

/-- Go `deleteZoneOfZone`: detaches the zone from the parent named by its first
`ContainedByZones` entry and deletes the zone. Returns the new store and the
returned `error` (`none` for `nil`). -/
def deleteZoneOfZone (store : Store) (respData : ZoneData) (uri : String) :
    Except Fault (Store × Option String) :=
  match respData.Zone.Links with
  | none => .ok (store, none)
  | some l =>
    if l.ContainedByZonesCount ≠ 0 then
      match l.ContainedByZones with
      | none => .error Fault.indexOutOfRange
      | some [] => .error Fault.indexOutOfRange
      | some (parentZoneLink :: _) =>
        match store.get parentZoneLink.Oid with
        | none => .ok (store, some ("Zone data for uri " ++ uri ++ " not found"))
        | some parentZoneData =>
          match parentZoneData.Zone.Links with
          | none => .error Fault.nilPointerDereference
          | some pl =>
            let links := pl.ContainsZones
            match removeAt links (parentZoneIndex links uri) with
            | .error f => .error f
            | .ok remaining =>
              let pl' : ZoneLinks :=
                { pl with ContainsZones := remaining
                          ContainsZonesCount := (remaining.len : Int) }
              let parentZone : Zone := { parentZoneData.Zone with Links := some pl' }
              let store' :=
                store.put parentZoneLink.Oid { parentZoneData with Zone := parentZone }
              .ok (store'.del uri, none)
    else .ok (store.del uri, none)

/-! ## Provisioning against the fabric controller -/

/-- Go `CreateDefaultZone`: probes the tenant list and creates the tenant. -/
def CreateDefaultZone (aci : Adapter) (zone : Zone) : List AdapterCall × Body × Nat :=
  let tenantList := aci.ListTenant
  match tenantList.err with
  | some e =>
    ([.ListTenant],
      .error .GeneralError ("Error while creating default Zone: " ++ e) [], 400)
  | none =>
    if zone.Name ∈ tenantList.names then
      ([.ListTenant],
        .error .ResourceAlreadyExists
          ("Default zone already exists with name: " ++ zone.Name)
          ["DefaultZone", zone.Name, zone.Name], 409)
    else
      match aci.CreateTenant zone.Name zone.Description with
      | some e =>
        ([.ListTenant, .CreateTenant zone.Name zone.Description],
          .error .GeneralError ("Error while creating default Zone: " ++ e) [], 400)
      | none =>
        ([.ListTenant, .CreateTenant zone.Name zone.Description], .adapterObject, 201)

/-- Go `CreateZoneOfZones`: validates the parent link, probes for an existing
application profile and VRF, then creates both. Returns the adapter calls made
and either a panic or `(defaultZoneLink, resp, statusCode)`. -/
def CreateZoneOfZones (store : Store) (aci : Adapter) (uri fabricID : String) (zone : Zone) :
    List AdapterCall × Except Fault (String × Body × Nat) :=
  let vrfName := zone.Name ++ "-VRF"
  match zone.Links with
  | none => ([], .error Fault.nilPointerDereference)
  | some l =>
    if l.ContainedByZones.len = 0 then
      ([], .ok ("", .error .PropertyMissing
        "Zone cannot be created as there are dependent resources missing"
        ["ContainedByZones"], 400))
    else
      match l.ContainedByZones with
      | none => ([], .error Fault.indexOutOfRange)
      | some [] => ([], .error Fault.indexOutOfRange)
      | some (first :: _) =>
        let defaultZoneLink := first.Oid
        match store.get defaultZoneLink with
        | none =>
          ([], .ok ("", .error .ResourceNotFound
            ("Zone data for uri " ++ defaultZoneLink ++ " not found")
            ["Zone", defaultZoneLink], 404))
        | some respData =>
          let tenant := respData.Zone.Name
          let c1 : List AdapterCall := [.ListApplicationProfile tenant]
          let appProfileList := aci.ListApplicationProfile tenant
          match fatalListError appProfileList.err with
          | some e =>
            (c1, .ok ("", .error .PropertyMissing
              ("Zone cannot be created, error while retriving existing Application profiles: "
                ++ e) ["ContainedByZones"], 400))
          | none =>
            if zone.Name ∈ appProfileList.names then
              (c1, .ok ("", .error .ResourceAlreadyExists
                ("Application profile already exists with name: " ++ zone.Name)
                ["ApplicationProfile", zone.Name, zone.Name], 409))
            else
              let c2 := c1 ++ [.ListVRF tenant]
              let vrfList := aci.ListVRF tenant
              match fatalListError vrfList.err with
              | some e =>
                (c2, .ok ("", .error .PropertyMissing
                  ("Zone cannot be created, error while retriving existing VRFs: " ++ e)
                  ["ContainedByZones"], 400))
              | none =>
                if vrfName ∈ vrfList.names then
                  (c2, .ok ("", .error .ResourceAlreadyExists
                    ("VRF already exists with name: " ++ vrfName)
                    ["VRF", vrfName, vrfName], 409))
                else
                  let c3 := c2 ++
                    [.CreateApplicationProfile zone.Name tenant respData.Zone.Description]
                  match aci.CreateApplicationProfile zone.Name tenant
                      respData.Zone.Description with
                  | some e =>
                    (c3, .ok ("", .error .GeneralError
                      ("Error while creating application profile: " ++ e) [], 400))
                  | none =>
                    let c4 := c3 ++ [.CreateVRF vrfName tenant respData.Zone.Description]
                    match aci.CreateVRF vrfName tenant respData.Zone.Description with
                    | some e =>
                      (c4, .ok ("", .error .GeneralError
                        ("Error while creating application profile: " ++ e) [], 400))
                    | none => (c4, .ok (defaultZoneLink, .adapterObject, 201))

/-- Go `createBridgeDomain`: probes the bridge domains of the tenant and creates
the bridge domain. -/
def createBridgeDomain (aci : Adapter) (tenantName : String) (zone : Zone) :
    List AdapterCall × Body × Nat :=
  let c1 : List AdapterCall := [.ListBridgeDomain tenantName]
  let bridgeDomainList := aci.ListBridgeDomain tenantName
  match fatalListError bridgeDomainList.err with
  | some e =>
    (c1, .error .GeneralError ("Error while creating Zone endpoints: " ++ e) [], 400)
  | none =>
    if zone.Name ∈ bridgeDomainList.names then
      (c1, .error .ResourceAlreadyExists
        ("ZoneOfEndpoints already exists with name: " ++ zone.Name ++
          " for the default zone " ++ tenantName)
        ["ZoneOfEndpoints", zone.Name, zone.Name], 409)
    else
      let c2 := c1 ++ [.CreateBridgeDomain zone.Name tenantName zone.Description]
      match aci.CreateBridgeDomain zone.Name tenantName zone.Description with
      | some e =>
        (c2, .error .GeneralError ("Error while creating  Zone of Endpoints: " ++ e) [], 400)
      | none => (c2, .adapterObject, 201)

/-- Go `createZoneOfEndpoints`: resolves the tenant through the ZoneOfZones
parent and its Default parent, then creates the bridge domain. -/
def createZoneOfEndpoints (store : Store) (aci : Adapter) (uri fabricID : String)
    (zone : Zone) : List AdapterCall × Except Fault (Body × Nat) :=
  match zone.Links with
  | none =>
    ([], .ok (.error .PropertyMissing "Links attribute is missing in the request"
      ["Links"], 400))
  | some l =>
    match l.ContainedByZones with
    | none =>
      ([], .ok (.error .PropertyMissing
        "ContainedByZones attribute is missing in the request" ["ContainedByZones"], 400))
    | some [] => ([], .error Fault.indexOutOfRange)
    | some (first :: _) =>
      let zoneofZoneURL := first.Oid
      match store.get zoneofZoneURL with
      | none =>
        ([], .ok (.error .ResourceNotFound
          ("ZoneofZone data for uri " ++ uri ++ " not found")
          ["ZoneofZone", zoneofZoneURL], 404))
      | some zoneofZoneData =>
        match zoneofZoneData.Zone.Links with
        | none => ([], .error Fault.nilPointerDereference)
        | some zl =>
          match zl.ContainedByZones with
          | none => ([], .error Fault.indexOutOfRange)
          | some [] => ([], .error Fault.indexOutOfRange)
          | some (parent :: _) =>
            let defaultZoneURL := parent.Oid
            match store.get defaultZoneURL with
            | none => ([], .error Fault.nilPointerDereference)
            | some defaultZoneData =>
              let r := createBridgeDomain aci defaultZoneData.Zone.Name zone
              (r.1, .ok r.2)

/-! ## Request handlers -/

/-- The scan `for _, value := range capdata.ZoneDataStore` that sets
`conflictFlag` when a stored zone carries the same name. -/
def conflictFlag (store : Store) (zone : Zone) : Bool :=
  store.any (fun kv => decide (kv.2.Zone.Name = zone.Name))

/-- A response with a status code and an error envelope. -/
def errorResponse (status : Nat) (code : ErrorClass) (msg : String) (args : List String) :
    Completion :=
  .returned { StatusCode := some status, Location := none, JSON := some (.error code msg args) }

/-- A response with a status code and a body returned by a helper. -/
def relay (status : Nat) (resp : Body) : Completion :=
  .returned { StatusCode := some status, Location := none, JSON := some resp }

/-- Go `CreateZone`. `fabrics` holds the keys of `capdata.FabricDataStore.Data`,
`uri` is the request URI, `fabricID` the `id` path parameter, `body` the zone
decoded by `ctx.ReadJSON` (`none` when decoding fails) and `newID` the value of
`uuid.NewV4().String()`. -/
def CreateZone (fabrics : List String) (store : Store) (aci : Adapter)
    (uri fabricID : String) (body : Option Zone) (newID : String) : Outcome :=
  if fabricID ∉ fabrics then
    { ZoneDataStore := store, calls := [],
      completion := errorResponse 404 .ResourceNotFound
        ("Fabric data for uri " ++ uri ++ " not found") ["Fabric", fabricID] }
  else
    match body with
    | none =>
      { ZoneDataStore := store, calls := [],
        completion := errorResponse 400 .MalformedJSON
          "error while trying to get JSON body from the  request: " [] }
    | some zone =>
      if zone.ZoneType = "Default" then
        match CreateDefaultZone aci zone with
        | (calls, resp, statusCode) =>
          if statusCode ≠ 201 then
            { ZoneDataStore := store, calls := calls, completion := relay statusCode resp }
          else
            let saved : Store × Zone :=
              if conflictFlag store zone then (store, zone)
              else saveZoneData store newID uri fabricID zone
            { ZoneDataStore := saved.1, calls := calls,
              completion := .returned
                { StatusCode := some statusCode, Location := some saved.2.ODataID,
                  JSON := some (.zone saved.2) } }
      else if zone.ZoneType = "ZoneOfZones" then
        match CreateZoneOfZones store aci uri fabricID zone with
        | (calls, .error f) =>
          { ZoneDataStore := store, calls := calls, completion := .panicked f }
        | (calls, .ok (defaultZoneLink, resp, statusCode)) =>
          if statusCode ≠ 201 then
            { ZoneDataStore := store, calls := calls, completion := relay statusCode resp }
          else
            let saved : Store × Zone :=
              if conflictFlag store zone then (store, zone)
              else saveZoneData store newID uri fabricID zone
            match updateZoneData saved.1 defaultZoneLink saved.2 with
            | .error f =>
              { ZoneDataStore := saved.1, calls := calls, completion := .panicked f }
            | .ok store' =>
              { ZoneDataStore := store', calls := calls,
                completion := .returned
                  { StatusCode := some statusCode, Location := some saved.2.ODataID,
                    JSON := some (.zone saved.2) } }
      else if zone.ZoneType = "ZoneOfEndpoints" then
        match createZoneOfEndpoints store aci uri fabricID zone with
        | (calls, .error f) =>
          { ZoneDataStore := store, calls := calls, completion := .panicked f }
        | (calls, .ok (resp, statusCode)) =>
          if statusCode ≠ 201 then
            { ZoneDataStore := store, calls := calls, completion := relay statusCode resp }
          else
            let saved := saveZoneData store newID uri fabricID zone
            { ZoneDataStore := saved.1, calls := calls,
              completion := .returned
                { StatusCode := some statusCode, Location := none,
                  JSON := some (.zone saved.2) } }
      else
        { ZoneDataStore := store, calls := [],
          completion := .returned { StatusCode := some 501, Location := none, JSON := none } }

/-- Go `DeleteZone`. The two `if` statements on `ZoneType` are exclusive, so
they are written as one chain. On success the code calls
`ctx.JSON(http.StatusNoContent)` and never `ctx.StatusCode`. -/
def DeleteZone (fabrics : List String) (store : Store) (aci : Adapter)
    (uri fabricID : String) : Outcome :=
  if fabricID ∉ fabrics then
    { ZoneDataStore := store, calls := [],
      completion := errorResponse 404 .ResourceNotFound
        ("Fabric data for uri " ++ uri ++ " not found") ["Fabric", fabricID] }
  else
    match store.get uri with
    | none =>
      { ZoneDataStore := store, calls := [],
        completion := errorResponse 404 .ResourceNotFound
          ("Zone data for uri " ++ uri ++ " not found") ["Zone", uri] }
    | some respData =>
      let blocked : Bool :=
        match respData.Zone.Links with
        | none => false
        | some l => decide (l.ContainsZonesCount ≠ 0)
      if blocked then
        { ZoneDataStore := store, calls := [],
          completion := errorResponse 406 .ResourceCannotBeDeleted
            "Zone cannot be deleted as there are dependent resources still tied to it"
            ["Zone", uri] }
      else if respData.Zone.ZoneType = "ZoneOfZones" then
        match deleteZoneOfZone store respData uri with
        | .error f => { ZoneDataStore := store, calls := [], completion := .panicked f }
        | .ok (store', some _) =>
          { ZoneDataStore := store', calls := [],
            completion := errorResponse 404 .ResourceNotFound
              ("Zone data for uri " ++ uri ++ " not found") ["Zone", uri] }
        | .ok (store', none) =>
          { ZoneDataStore := store'.del uri, calls := [],
            completion := .returned
              { StatusCode := none, Location := none, JSON := some (.int 204) } }
      else if respData.Zone.ZoneType = "Default" then
        match aci.DeleteTenant respData.Zone.Name with
        | some e =>
          { ZoneDataStore := store, calls := [.DeleteTenant respData.Zone.Name],
            completion := errorResponse 400 .GeneralError
              ("Error while deleting Zone: " ++ e) [] }
        | none =>
          { ZoneDataStore := store.del uri, calls := [.DeleteTenant respData.Zone.Name],
            completion := .returned
              { StatusCode := none, Location := none, JSON := some (.int 204) } }
      else
        { ZoneDataStore := store, calls := [],
          completion := .returned { StatusCode := none, Location := none, JSON := none } }

/-- A request to one of the two mutating handlers, with the adapter outcomes
that hold while it is served. -/
inductive Request where
  | create (aci : Adapter) (uri fabricID : String) (body : Option Zone) (newID : String)
  | delete (aci : Adapter) (uri fabricID : String)

/-- Serves one request on the given store. -/
def serve (fabrics : List String) (store : Store) : Request → Outcome
  | .create aci uri fabricID body newID => CreateZone fabrics store aci uri fabricID body newID
  | .delete aci uri fabricID => DeleteZone fabrics store aci uri fabricID

/-- The zone store after serving the requests in order, starting from `store`. -/
def run (fabrics : List String) (store : Store) : List Request → Store
  | [] => store
  | r :: rest => run fabrics (serve fabrics store r).ZoneDataStore rest

/-- The status code and error class of a completion that carries an error
envelope. -/
def Completion.errorCode : Completion → Option (Nat × ErrorClass)
  | .returned { StatusCode := some s, JSON := some (.error c _ _), .. } => some (s, c)
  | _ => none

/-- The status code written by the handler, when it returned and wrote one. -/
def Completion.status : Completion → Option Nat
  | .returned r => r.StatusCode
  | .panicked _ => none

/-- The stored zone's `ContainsZones` and `ContainsZonesCount`, when the record
exists and has links. -/
def containsOf (store : Store) (uri : String) : Option (LinkSlice × Int) :=
  match store.get uri with
  | none => none
  | some zd =>
    match zd.Zone.Links with
    | none => none
    | some l => some (l.ContainsZones, l.ContainsZonesCount)

/-! ## Sample requests -/

/-- An adapter on which every listing is empty and every operation succeeds. -/
def okAdapter : Adapter where
  ListTenant := { names := [], err := none }
  CreateTenant := fun _ _ => none
  DeleteTenant := fun _ => none
  ListApplicationProfile := fun _ => { names := [], err := none }
  ListVRF := fun _ => { names := [], err := none }
  CreateApplicationProfile := fun _ _ _ => none
  CreateVRF := fun _ _ _ => none
  ListBridgeDomain := fun _ => { names := [], err := none }
  CreateBridgeDomain := fun _ _ _ => none

/-- A request body as decoded from `{ZoneType, Name, Links.ContainedByZones}`;
`parents = none` stands for a body without `Links`. -/
def zoneBody (zoneType name : String) (parents : Option (List String)) : Zone where
  ODataContext := ""
  ODataID := ""
  ODataType := ""
  ID := ""
  Name := name
  Description := ""
  ZoneType := zoneType
  Links := parents.map fun ps =>
    { ContainedByZones := some (ps.map Link.mk), ContainedByZonesCount := 0,
      ContainsZones := none, ContainsZonesCount := 0 }
  Status := none

/-- `POST /Z` of a Default zone named `name`, drawing identifier `id`. -/
def postDefault (name id : String) : Request :=
  .create okAdapter "/Z" "F1" (some (zoneBody "Default" name none)) id

/-- `POST /Z` of a ZoneOfZones named `name` under `parent`, drawing identifier `id`. -/
def postZoneOfZones (name parent id : String) : Request :=
  .create okAdapter "/Z" "F1" (some (zoneBody "ZoneOfZones" name (some [parent]))) id

/-- `DELETE uri`. -/
def deleteAt (uri : String) : Request :=
  .delete okAdapter uri "F1"

/-- An adapter on which the VRF creation fails and everything else succeeds. -/
def vrfFailingAdapter : Adapter :=
  { okAdapter with CreateVRF := fun _ _ _ => some "APIC unreachable" }

/-- A Default zone `T1` stored at `/Z/d` and a ZoneOfZones `Z1` at `/Z/a` under it. -/
def twoLevels : List Request :=
  [postDefault "T1" "d", postZoneOfZones "Z1" "/Z/d" "a"]

/-- A Default zone `T1` at `/Z/d` with two ZoneOfZones `Z1`, `Z2` at `/Z/a`, `/Z/b`
created under it. -/
def threeZones : List Request :=
  [postDefault "T1" "d", postZoneOfZones "Z1" "/Z/d" "a", postZoneOfZones "Z2" "/Z/d" "b"]

/-- Create `T1`, create `Z1` under it, delete `Z1`, create `Z2` under `T1`. -/
def recreatedChild : List Request :=
  [postDefault "T1" "d", postZoneOfZones "Z1" "/Z/d" "a", deleteAt "/Z/a",
    postZoneOfZones "Z2" "/Z/d" "b"]

/-- The store of `twoLevels` to which a ZoneOfZones record `/Z/z` naming `/Z/d`
as parent was saved without a link being added to the parent. -/
def detachedStore : Store :=
  (saveZoneData (run ["F1"] [] twoLevels) "z" "/Z" "F1"
    (zoneBody "ZoneOfZones" "Z9" (some ["/Z/d"]))).1

/-- The record stored at `/Z/z` in `detachedStore`. -/
def detachedZone : ZoneData :=
  { FabricID := "F1"
    Zone :=
      { ODataContext := "/ODIM/v1/$metadata#Zone.Zone"
        ODataID := "/Z/z"
        ODataType := "#Zone.v1_4_0.Zone"
        ID := "z"
        Name := "Z9"
        Description := ""
        ZoneType := "ZoneOfZones"
        Links := some
          { ContainedByZones := some [{ Oid := "/Z/d" }], ContainedByZonesCount := 1,
            ContainsZones := none, ContainsZonesCount := 0 }
        Status := some { State := "Enabled", Health := "OK" } } }

/-! ## Adapter calls made by the helpers -/

/-- The only adapter operations of `CreateDefaultZone` are the tenant listing
and the tenant creation. -/
theorem CreateDefaultZone_calls (aci : Adapter) (zone : Zone) (c : AdapterCall)
    (hc : c ∈ (CreateDefaultZone aci zone).1) :
    c = .ListTenant ∨ c = .CreateTenant zone.Name zone.Description := by
  revert hc
  unfold CreateDefaultZone
  simp only []
  repeat' split
  all_goals simp_all

/-- The only adapter operations of `createBridgeDomain` are the bridge-domain
listing and creation. -/
theorem createBridgeDomain_calls (aci : Adapter) (tenantName : String) (zone : Zone)
    (c : AdapterCall) (hc : c ∈ (createBridgeDomain aci tenantName zone).1) :
    c = .ListBridgeDomain tenantName ∨
      c = .CreateBridgeDomain zone.Name tenantName zone.Description := by
  revert hc
  unfold createBridgeDomain
  simp only []
  repeat' split
  all_goals simp_all

/-- Every adapter operation of `createZoneOfEndpoints` is a bridge-domain
operation. -/
theorem createZoneOfEndpoints_calls (store : Store) (aci : Adapter) (uri fabricID : String)
    (zone : Zone) (c : AdapterCall)
    (hc : c ∈ (createZoneOfEndpoints store aci uri fabricID zone).1) :
    ∃ tenantName, c = .ListBridgeDomain tenantName ∨
      c = .CreateBridgeDomain zone.Name tenantName zone.Description := by
  revert hc
  unfold createZoneOfEndpoints
  simp only []
  repeat' split
  all_goals first
    | (intro hc; exact absurd hc (List.not_mem_nil _))
    | (intro hc; exact ⟨_, createBridgeDomain_calls _ _ _ _ hc⟩)

/-- When `CreateZoneOfZones` invoked the VRF creation and it failed, the four
adapter operations ran in order, the application profile had been created, and
the function returned `400` with `GeneralError`. -/
theorem CreateZoneOfZones_vrf_failure (store : Store) (aci : Adapter) (uri fabricID : String)
    (zone : Zone) (vrf tenant desc e : String)
    (hcall : AdapterCall.CreateVRF vrf tenant desc ∈
      (CreateZoneOfZones store aci uri fabricID zone).1)
    (hfail : aci.CreateVRF vrf tenant desc = some e) :
    CreateZoneOfZones store aci uri fabricID zone =
      ([.ListApplicationProfile tenant, .ListVRF tenant,
        .CreateApplicationProfile zone.Name tenant desc, .CreateVRF vrf tenant desc],
       .ok ("", .error .GeneralError ("Error while creating application profile: " ++ e) [], 400))
      ∧ aci.CreateApplicationProfile zone.Name tenant desc = none := by
  revert hcall
  unfold CreateZoneOfZones
  simp only []
  repeat' split
  all_goals simp_all
  all_goals
    intro h1 h2 h3
    subst h1 h2 h3
    simp_all

/-- The adapter operations of `CreateZone` on a Default body are those of
`CreateDefaultZone`. -/
theorem CreateZone_calls_default (fabrics : List String) (store : Store) (aci : Adapter)
    (uri fabricID : String) (zone : Zone) (newID : String)
    (hD : zone.ZoneType = "Default") (c : AdapterCall)
    (hc : c ∈ (CreateZone fabrics store aci uri fabricID (some zone) newID).calls) :
    c ∈ (CreateDefaultZone aci zone).1 := by
  revert hc
  unfold CreateZone
  simp only [hD]
  repeat' split
  all_goals simp_all

/-- The adapter operations of `CreateZone` on a ZoneOfZones body are those of
`CreateZoneOfZones`. -/
theorem CreateZone_calls_zoneOfZones (fabrics : List String) (store : Store) (aci : Adapter)
    (uri fabricID : String) (zone : Zone) (newID : String)
    (hZ : zone.ZoneType = "ZoneOfZones") (c : AdapterCall)
    (hc : c ∈ (CreateZone fabrics store aci uri fabricID (some zone) newID).calls) :
    c ∈ (CreateZoneOfZones store aci uri fabricID zone).1 := by
  revert hc
  unfold CreateZone
  simp only [hZ]
  repeat' split
  all_goals simp_all

/-- The adapter operations of `CreateZone` on a body of any other type are those
of `createZoneOfEndpoints`. -/
theorem CreateZone_calls_endpoints (fabrics : List String) (store : Store) (aci : Adapter)
    (uri fabricID : String) (zone : Zone) (newID : String)
    (hD : zone.ZoneType ≠ "Default") (hZ : zone.ZoneType ≠ "ZoneOfZones") (c : AdapterCall)
    (hc : c ∈ (CreateZone fabrics store aci uri fabricID (some zone) newID).calls) :
    c ∈ (createZoneOfEndpoints store aci uri fabricID zone).1 := by
  revert hc
  unfold CreateZone
  simp only [hD, hZ]
  repeat' split
  all_goals simp_all

/-! ## Link counters -/

/-- Claim C1, evaluated on the code: after a Default zone and two ZoneOfZones
under it were created from the empty store, the Default record lists two
children while its `ContainsZonesCount` is `1`. -/
theorem ContainsZonesCount_stale_after_second_child :
    containsOf (run ["F1"] [] threeZones) "/Z/d"
      = some (some [{ Oid := "/Z/a" }, { Oid := "/Z/b" }], 1) := by
  decide

/-- Claim C2, evaluated on the code: after create `T1`, create `Z1`, delete `Z1`,
create `Z2`, the Default record `/Z/d` lists `/Z/b` with count `0`; `DeleteZone`
on it calls `DeleteTenant` and removes the record. -/
theorem DeleteZone_removes_default_with_child :
    containsOf (run ["F1"] [] recreatedChild) "/Z/d" = some (some [{ Oid := "/Z/b" }], 0) ∧
    ((run ["F1"] [] recreatedChild).get "/Z/d").map (fun zd => zd.Zone.ZoneType)
      = some "Default" ∧
    (DeleteZone ["F1"] (run ["F1"] [] recreatedChild) okAdapter "/Z/d" "F1").calls
      = [.DeleteTenant "T1"] ∧
    (DeleteZone ["F1"] (run ["F1"] [] recreatedChild) okAdapter "/Z/d" "F1").ZoneDataStore.get
      "/Z/d" = none := by
  decide

/-- Claim C3: `DeleteZone` on a stored zone whose `ContainsZonesCount` is
non-zero, under a known fabric, answers `406` with `ResourceCannotBeDeleted`,
calls no adapter operation and returns the store as it was. -/
theorem DeleteZone_refuses_zone_with_children (fabrics : List String) (store : Store)
    (aci : Adapter) (uri fabricID : String) (zd : ZoneData) (l : ZoneLinks)
    (hfabric : fabricID ∈ fabrics) (hzone : store.get uri = some zd)
    (hlinks : zd.Zone.Links = some l) (hcount : l.ContainsZonesCount ≠ 0) :
    (DeleteZone fabrics store aci uri fabricID).completion.errorCode
        = some (406, ErrorClass.ResourceCannotBeDeleted) ∧
      (DeleteZone fabrics store aci uri fabricID).calls = [] ∧
      (DeleteZone fabrics store aci uri fabricID).ZoneDataStore = store := by
  simp [DeleteZone, hfabric, hzone, hlinks, hcount, errorResponse, Completion.errorCode]

/-- The refusal holds for the Default zone `/Z/d` once it has one child. -/
theorem DeleteZone_refuses_zone_with_children_witness :
    (DeleteZone ["F1"] (run ["F1"] [] twoLevels) okAdapter "/Z/d" "F1").completion.errorCode
        = some (406, ErrorClass.ResourceCannotBeDeleted) ∧
      (DeleteZone ["F1"] (run ["F1"] [] twoLevels) okAdapter "/Z/d" "F1").calls = [] ∧
      (DeleteZone ["F1"] (run ["F1"] [] twoLevels) okAdapter "/Z/d" "F1").ZoneDataStore
        = run ["F1"] [] twoLevels :=
  DeleteZone_refuses_zone_with_children ["F1"] (run ["F1"] [] twoLevels) okAdapter "/Z/d" "F1"
    { FabricID := "F1",
      Zone := { ODataContext := "/ODIM/v1/$metadata#Zone.Zone", ODataID := "/Z/d",
                ODataType := "#Zone.v1_4_0.Zone", ID := "d", Name := "T1", Description := "",
                ZoneType := "Default",
                Links := some { ContainedByZones := none, ContainedByZonesCount := 0,
                                ContainsZones := some [{ Oid := "/Z/a" }],
                                ContainsZonesCount := 1 },
                Status := some { State := "Enabled", Health := "OK" } } }
    { ContainedByZones := none, ContainedByZonesCount := 0,
      ContainsZones := some [{ Oid := "/Z/a" }], ContainsZonesCount := 1 }
    (by decide) (by decide) (by decide) (by decide)

/-- Claim C4, evaluated on the code: with `/Z/d` already listing one child with
count `1`, creating a second ZoneOfZones under it is answered `201`, the new
URI is appended to `ContainsZones` and `ContainsZonesCount` is still `1`. -/
theorem CreateZone_second_child_keeps_count :
    containsOf (run ["F1"] [] twoLevels) "/Z/d" = some (some [{ Oid := "/Z/a" }], 1) ∧
    (CreateZone ["F1"] (run ["F1"] [] twoLevels) okAdapter "/Z" "F1"
        (some (zoneBody "ZoneOfZones" "Z2" (some ["/Z/d"]))) "b").completion.status
      = some 201 ∧
    containsOf (CreateZone ["F1"] (run ["F1"] [] twoLevels) okAdapter "/Z" "F1"
        (some (zoneBody "ZoneOfZones" "Z2" (some ["/Z/d"]))) "b").ZoneDataStore "/Z/d"
      = some (some [{ Oid := "/Z/a" }, { Oid := "/Z/b" }], 1) := by
  decide

/-- Claim C5, evaluated on the code: in the store of `threeZones` the Default
record has count `1`; creating `/Z/c` under it (answered `201`) leaves the count
at `1`, and deleting `/Z/c` removes its link and sets the count to `2`. -/
theorem ContainsZonesCount_not_restored_by_delete :
    containsOf (run ["F1"] [] threeZones) "/Z/d"
      = some (some [{ Oid := "/Z/a" }, { Oid := "/Z/b" }], 1) ∧
    (serve ["F1"] (run ["F1"] [] threeZones)
        (postZoneOfZones "Z3" "/Z/d" "c")).completion.status = some 201 ∧
    containsOf (run ["F1"] [] (threeZones ++ [postZoneOfZones "Z3" "/Z/d" "c"])) "/Z/d"
      = some (some [{ Oid := "/Z/a" }, { Oid := "/Z/b" }, { Oid := "/Z/c" }], 1) ∧
    containsOf
        (run ["F1"] [] (threeZones ++ [postZoneOfZones "Z3" "/Z/d" "c", deleteAt "/Z/c"]))
        "/Z/d"
      = some (some [{ Oid := "/Z/a" }, { Oid := "/Z/b" }], 2) := by
  decide

/-- Claim C7, evaluated on the code: the parent `/Z/d` lists only `/Z/a`;
detaching `/Z/z`, which the parent does not list, returns no error, removes the
link to `/Z/a` and sets the count to `0`, while `/Z/a` is still stored. -/
theorem deleteZoneOfZone_removes_first_link_when_absent :
    detachedStore.get "/Z/z" = some detachedZone ∧
    containsOf detachedStore "/Z/d" = some (some [{ Oid := "/Z/a" }], 1) ∧
    ∃ store', deleteZoneOfZone detachedStore detachedZone "/Z/z" = .ok (store', none) ∧
      containsOf store' "/Z/d" = some (some [], 0) ∧
      (store'.get "/Z/a").isSome = true := by
  refine ⟨by decide, by decide, _, rfl, by decide, by decide⟩

/-! ## Validation of the parent link of a ZoneOfZones -/

/-- Claim C6 refuted as stated: a ZoneOfZones request with two
`ContainedByZones` entries, the first naming a stored zone, is not rejected;
the four adapter operations run and `201` is returned. -/
theorem CreateZoneOfZones_accepts_two_parents :
    CreateZoneOfZones (run ["F1"] [] [postDefault "T1" "d"]) okAdapter "/Z" "F1"
        (zoneBody "ZoneOfZones" "Z1" (some ["/Z/d", "/Z/x"]))
      = ([.ListApplicationProfile "T1", .ListVRF "T1",
          .CreateApplicationProfile "Z1" "T1" "", .CreateVRF "Z1-VRF" "T1" ""],
         .ok ("/Z/d", .adapterObject, 201)) ∧
    ¬ ∀ (store : Store) (aci : Adapter) (uri fabricID : String) (zone : Zone) (l : ZoneLinks),
        zone.Links = some l →
        (l.ContainedByZones.len = 0 ∨ 1 < l.ContainedByZones.len) →
        (CreateZoneOfZones store aci uri fabricID zone).1 = [] ∧
          ∃ link body,
            (CreateZoneOfZones store aci uri fabricID zone).2 = .ok (link, body, 400) := by
  refine ⟨by rfl, fun h => ?_⟩
  have h' := (h (run ["F1"] [] [postDefault "T1" "d"]) okAdapter "/Z" "F1"
    (zoneBody "ZoneOfZones" "Z1" (some ["/Z/d", "/Z/x"]))
    { ContainedByZones := some [⟨"/Z/d"⟩, ⟨"/Z/x"⟩], ContainedByZonesCount := 0,
      ContainsZones := none, ContainsZonesCount := 0 } rfl (Or.inr (by decide))).1
  exact absurd h' (by decide)

/-- Claim C6 as amended: for a ZoneOfZones request that carries links, an empty
`ContainedByZones` yields `400` with `PropertyMissing` and no adapter call; with
more entries the request is processed exactly as the request holding only the
first entry. -/
theorem CreateZoneOfZones_parent_links (store : Store) (aci : Adapter) (uri fabricID : String)
    (zone : Zone) (l : ZoneLinks) (hl : zone.Links = some l) :
    (l.ContainedByZones.len = 0 →
      CreateZoneOfZones store aci uri fabricID zone =
        ([], .ok ("", .error .PropertyMissing
          "Zone cannot be created as there are dependent resources missing"
          ["ContainedByZones"], 400))) ∧
    (∀ first rest, l.ContainedByZones = some (first :: rest) →
      CreateZoneOfZones store aci uri fabricID zone =
        CreateZoneOfZones store aci uri fabricID
          { zone with Links := some { l with ContainedByZones := some [first] } }) := by
  constructor
  · intro h0
    simp [CreateZoneOfZones, hl, h0]
  · intro first rest hc
    simp [CreateZoneOfZones, hl, hc, LinkSlice.len]

/-- A ZoneOfZones body with an empty `ContainedByZones` is answered `400`. -/
theorem CreateZoneOfZones_parent_links_witness :
    CreateZoneOfZones [] okAdapter "/Z" "F1" (zoneBody "ZoneOfZones" "Z1" (some [])) =
      ([], .ok ("", .error .PropertyMissing
        "Zone cannot be created as there are dependent resources missing"
        ["ContainedByZones"], 400)) :=
  (CreateZoneOfZones_parent_links [] okAdapter "/Z" "F1" (zoneBody "ZoneOfZones" "Z1" (some []))
    { ContainedByZones := some [], ContainedByZonesCount := 0,
      ContainsZones := none, ContainsZonesCount := 0 } rfl).1 (by decide)

/-- Claim C8 refuted as stated: a ZoneOfZones request whose single parent link
names a stored record of type `ZoneOfZones` is not answered `404`; the adapter
is called and `201` is returned. -/
theorem CreateZoneOfZones_accepts_any_parent_type :
    CreateZoneOfZones (run ["F1"] [] twoLevels) okAdapter "/Z" "F1"
        (zoneBody "ZoneOfZones" "Z2" (some ["/Z/a"]))
      = ([.ListApplicationProfile "Z1", .ListVRF "Z1",
          .CreateApplicationProfile "Z2" "Z1" "", .CreateVRF "Z2-VRF" "Z1" ""],
         .ok ("/Z/a", .adapterObject, 201)) ∧
    ¬ ∀ (store : Store) (aci : Adapter) (uri fabricID : String) (zone : Zone) (l : ZoneLinks)
        (p : Link),
        zone.Links = some l → l.ContainedByZones = some [p] →
        (store.get p.Oid = none ∨
          ∃ zd, store.get p.Oid = some zd ∧ zd.Zone.ZoneType ≠ "Default") →
        (CreateZoneOfZones store aci uri fabricID zone).1 = [] ∧
          ∃ msg args, (CreateZoneOfZones store aci uri fabricID zone).2 =
            .ok ("", .error .ResourceNotFound msg args, 404) := by
  refine ⟨by rfl, fun h => ?_⟩
  have h' := (h (run ["F1"] [] twoLevels)
    okAdapter "/Z" "F1" (zoneBody "ZoneOfZones" "Z2" (some ["/Z/a"]))
    { ContainedByZones := some [⟨"/Z/a"⟩], ContainedByZonesCount := 0,
      ContainsZones := none, ContainsZonesCount := 0 } ⟨"/Z/a"⟩ rfl rfl
    (Or.inr ⟨_, by rfl, by decide⟩)).1
  exact absurd h' (by decide)

/-- Claim C8 as amended: for a ZoneOfZones request with exactly one parent link,
a URI absent from the store yields `404` with `ResourceNotFound` and no adapter
call; a URI present in the store, whatever the zone type of its record, makes
the function proceed to list the application profiles of the record's name. -/
theorem CreateZoneOfZones_parent_lookup (store : Store) (aci : Adapter) (uri fabricID : String)
    (zone : Zone) (l : ZoneLinks) (p : Link)
    (hl : zone.Links = some l) (hp : l.ContainedByZones = some [p]) :
    (store.get p.Oid = none →
      CreateZoneOfZones store aci uri fabricID zone =
        ([], .ok ("", .error .ResourceNotFound
          ("Zone data for uri " ++ p.Oid ++ " not found") ["Zone", p.Oid], 404))) ∧
    (∀ zd, store.get p.Oid = some zd →
      (CreateZoneOfZones store aci uri fabricID zone).1.head? =
        some (.ListApplicationProfile zd.Zone.Name)) := by
  constructor
  · intro hget
    simp [CreateZoneOfZones, hl, hp, hget, LinkSlice.len]
  · intro zd hget
    simp only [CreateZoneOfZones, hl, hp, hget, LinkSlice.len]
    simp only [List.length_singleton, one_ne_zero, if_false]
    repeat' split
    all_goals simp

/-- The parent URI `/Z/missing` on the empty store is answered `404`. -/
theorem CreateZoneOfZones_parent_lookup_witness :
    CreateZoneOfZones [] okAdapter "/Z" "F1" (zoneBody "ZoneOfZones" "Z1" (some ["/Z/missing"])) =
      ([], .ok ("", .error .ResourceNotFound
        ("Zone data for uri " ++ "/Z/missing" ++ " not found") ["Zone", "/Z/missing"], 404)) :=
  (CreateZoneOfZones_parent_lookup [] okAdapter "/Z" "F1"
    (zoneBody "ZoneOfZones" "Z1" (some ["/Z/missing"]))
    { ContainedByZones := some [⟨"/Z/missing"⟩], ContainedByZonesCount := 0,
      ContainsZones := none, ContainsZonesCount := 0 } ⟨"/Z/missing"⟩ rfl rfl).1 rfl

/-! ## Partial failure of a ZoneOfZones creation -/

/-- Claim C9: whenever `CreateZone` invoked the VRF creation and it failed, the
application profile had been created, the response is `400` with
`GeneralError`, the adapter calls are exactly the two listings and the two
creations (no deletion), and the zone store is returned unchanged. -/
theorem CreateZone_vrf_failure_no_rollback (fabrics : List String) (store : Store)
    (aci : Adapter) (uri fabricID : String) (zone : Zone) (newID : String)
    (vrf tenant desc e : String)
    (hcall : AdapterCall.CreateVRF vrf tenant desc ∈
      (CreateZone fabrics store aci uri fabricID (some zone) newID).calls)
    (hfail : aci.CreateVRF vrf tenant desc = some e) :
    aci.CreateApplicationProfile zone.Name tenant desc = none ∧
      (CreateZone fabrics store aci uri fabricID (some zone) newID).completion.errorCode
        = some (400, ErrorClass.GeneralError) ∧
      (CreateZone fabrics store aci uri fabricID (some zone) newID).calls
        = [.ListApplicationProfile tenant, .ListVRF tenant,
           .CreateApplicationProfile zone.Name tenant desc, .CreateVRF vrf tenant desc] ∧
      (CreateZone fabrics store aci uri fabricID (some zone) newID).ZoneDataStore = store := by
  by_cases hf : fabricID ∈ fabrics
  · by_cases hD : zone.ZoneType = "Default"
    · have h := CreateDefaultZone_calls aci zone _
        (CreateZone_calls_default fabrics store aci uri fabricID zone newID hD _ hcall)
      simp at h
    · by_cases hZ : zone.ZoneType = "ZoneOfZones"
      · have h := CreateZoneOfZones_vrf_failure store aci uri fabricID zone vrf tenant desc e
          (CreateZone_calls_zoneOfZones fabrics store aci uri fabricID zone newID hZ _ hcall)
          hfail
        refine ⟨h.2, ?_⟩
        simp [CreateZone, hf, hZ, h.1, relay, Completion.errorCode]
      · obtain ⟨t, h⟩ := createZoneOfEndpoints_calls store aci uri fabricID zone _
          (CreateZone_calls_endpoints fabrics store aci uri fabricID zone newID hD hZ _ hcall)
        simp at h
  · simp [CreateZone, hf] at hcall

/-- A ZoneOfZones `Z1` requested under the stored Default zone `T1` on an adapter
whose VRF creation fails leaves the store as it was. -/
theorem CreateZone_vrf_failure_no_rollback_witness :
    vrfFailingAdapter.CreateApplicationProfile "Z1" "T1" "" = none ∧
      (CreateZone ["F1"] (run ["F1"] [] [postDefault "T1" "d"]) vrfFailingAdapter "/Z" "F1"
        (some (zoneBody "ZoneOfZones" "Z1" (some ["/Z/d"]))) "a").completion.errorCode
        = some (400, ErrorClass.GeneralError) ∧
      (CreateZone ["F1"] (run ["F1"] [] [postDefault "T1" "d"]) vrfFailingAdapter "/Z" "F1"
        (some (zoneBody "ZoneOfZones" "Z1" (some ["/Z/d"]))) "a").calls
        = [.ListApplicationProfile "T1", .ListVRF "T1",
           .CreateApplicationProfile "Z1" "T1" "", .CreateVRF "Z1-VRF" "T1" ""] ∧
      (CreateZone ["F1"] (run ["F1"] [] [postDefault "T1" "d"]) vrfFailingAdapter "/Z" "F1"
        (some (zoneBody "ZoneOfZones" "Z1" (some ["/Z/d"]))) "a").ZoneDataStore
        = run ["F1"] [] [postDefault "T1" "d"] :=
  CreateZone_vrf_failure_no_rollback ["F1"] (run ["F1"] [] [postDefault "T1" "d"])
    vrfFailingAdapter "/Z" "F1" (zoneBody "ZoneOfZones" "Z1" (some ["/Z/d"])) "a"
    "Z1-VRF" "T1" "" "APIC unreachable" (by decide) rfl

/-! ## Validation of the parent chain of a ZoneOfEndpoints -/

/-- Claim C10 refuted as stated: on stores built by the handlers,
`createZoneOfEndpoints` accepts a request with two parent links, and panics on
an empty `ContainedByZones`, on a parent record without links, on a parent
record without parent link, and on a parent whose own parent is no longer
stored. -/
theorem createZoneOfEndpoints_unchecked_parents :
    createZoneOfEndpoints (run ["F1"] [] twoLevels) okAdapter "/Z" "F1"
        (zoneBody "ZoneOfEndpoints" "E1" (some ["/Z/a", "/Z/x"]))
      = ([.ListBridgeDomain "T1", .CreateBridgeDomain "E1" "T1" ""],
         .ok (.adapterObject, 201)) ∧
    createZoneOfEndpoints (run ["F1"] [] twoLevels) okAdapter "/Z" "F1"
        (zoneBody "ZoneOfEndpoints" "E1" (some []))
      = ([], .error Fault.indexOutOfRange) ∧
    createZoneOfEndpoints (run ["F1"] [] [postDefault "T1" "d"]) okAdapter "/Z" "F1"
        (zoneBody "ZoneOfEndpoints" "E1" (some ["/Z/d"]))
      = ([], .error Fault.nilPointerDereference) ∧
    createZoneOfEndpoints (run ["F1"] [] twoLevels) okAdapter "/Z" "F1"
        (zoneBody "ZoneOfEndpoints" "E1" (some ["/Z/d"]))
      = ([], .error Fault.indexOutOfRange) ∧
    createZoneOfEndpoints (run ["F1"] [] (recreatedChild ++ [deleteAt "/Z/d"])) okAdapter
        "/Z" "F1" (zoneBody "ZoneOfEndpoints" "E1" (some ["/Z/b"]))
      = ([], .error Fault.nilPointerDereference) ∧
    ¬ ∀ (store : Store) (aci : Adapter) (uri fabricID : String) (zone : Zone),
        (¬ ∃ l p zz zl q dz,
            zone.Links = some l ∧ l.ContainedByZones = some [p] ∧
            store.get p.Oid = some zz ∧ zz.Zone.ZoneType = "ZoneOfZones" ∧
            zz.Zone.Links = some zl ∧ zl.ContainedByZones = some [q] ∧
            store.get q.Oid = some dz ∧ dz.Zone.ZoneType = "Default") →
        (createZoneOfEndpoints store aci uri fabricID zone).1 = [] ∧
          ∃ body status, (createZoneOfEndpoints store aci uri fabricID zone).2 =
            .ok (body, status) ∧ (status = 400 ∨ status = 404) := by
  refine ⟨by rfl, by rfl, by rfl, by rfl, by rfl, fun h => ?_⟩
  have h' := (h (run ["F1"] [] twoLevels) okAdapter "/Z" "F1"
    (zoneBody "ZoneOfEndpoints" "E1" (some ["/Z/a", "/Z/x"])) (by
      rintro ⟨l, p, zz, zl, q, dz, h1, h2, -⟩
      simp [zoneBody] at h1
      subst h1
      simp at h2)).1
  exact absurd h' (by decide)

/-- Claim C10 as amended: `createZoneOfEndpoints` answers `400` with
`PropertyMissing` and no adapter call when the body has no links or no
`ContainedByZones`, and `404` with `ResourceNotFound` and no adapter call when
the first `ContainedByZones` entry is not in the store; when the first entry
and the first parent link of its record both resolve, it goes on to
`createBridgeDomain` for the name of the record at the end of the chain. -/
theorem createZoneOfEndpoints_validation (store : Store) (aci : Adapter)
    (uri fabricID : String) (zone : Zone) :
    (zone.Links = none →
      createZoneOfEndpoints store aci uri fabricID zone =
        ([], .ok (.error .PropertyMissing "Links attribute is missing in the request"
          ["Links"], 400))) ∧
    (∀ l, zone.Links = some l → l.ContainedByZones = none →
      createZoneOfEndpoints store aci uri fabricID zone =
        ([], .ok (.error .PropertyMissing
          "ContainedByZones attribute is missing in the request" ["ContainedByZones"], 400))) ∧
    (∀ l first rest, zone.Links = some l → l.ContainedByZones = some (first :: rest) →
      store.get first.Oid = none →
      createZoneOfEndpoints store aci uri fabricID zone =
        ([], .ok (.error .ResourceNotFound ("ZoneofZone data for uri " ++ uri ++ " not found")
          ["ZoneofZone", first.Oid], 404))) ∧
    (∀ l first rest zz zl parent rest' dz, zone.Links = some l →
      l.ContainedByZones = some (first :: rest) → store.get first.Oid = some zz →
      zz.Zone.Links = some zl → zl.ContainedByZones = some (parent :: rest') →
      store.get parent.Oid = some dz →
      createZoneOfEndpoints store aci uri fabricID zone =
        ((createBridgeDomain aci dz.Zone.Name zone).1,
          .ok (createBridgeDomain aci dz.Zone.Name zone).2)) := by
  refine ⟨?_, ?_, ?_, ?_⟩
  · intro h
    simp [createZoneOfEndpoints, h]
  · intro l h1 h2
    simp [createZoneOfEndpoints, h1, h2]
  · intro l first rest h1 h2 h3
    simp [createZoneOfEndpoints, h1, h2, h3]
  · intro l first rest zz zl parent rest' dz h1 h2 h3 h4 h5 h6
    simp [createZoneOfEndpoints, h1, h2, h3, h4, h5, h6]

/-- A ZoneOfEndpoints body without links is answered `400`, and one whose parent
URI is not stored is answered `404`. -/
theorem createZoneOfEndpoints_validation_witness :
    createZoneOfEndpoints [] okAdapter "/Z" "F1" (zoneBody "ZoneOfEndpoints" "E1" none) =
      ([], .ok (.error .PropertyMissing "Links attribute is missing in the request"
        ["Links"], 400)) ∧
    createZoneOfEndpoints [] okAdapter "/Z" "F1"
        (zoneBody "ZoneOfEndpoints" "E1" (some ["/Z/missing"])) =
      ([], .ok (.error .ResourceNotFound ("ZoneofZone data for uri " ++ "/Z" ++ " not found")
        ["ZoneofZone", "/Z/missing"], 404)) :=
  ⟨(createZoneOfEndpoints_validation [] okAdapter "/Z" "F1"
      (zoneBody "ZoneOfEndpoints" "E1" none)).1 rfl,
   (createZoneOfEndpoints_validation [] okAdapter "/Z" "F1"
      (zoneBody "ZoneOfEndpoints" "E1" (some ["/Z/missing"]))).2.2.1
      { ContainedByZones := some [⟨"/Z/missing"⟩], ContainedByZonesCount := 0,
        ContainsZones := none, ContainsZonesCount := 0 } ⟨"/Z/missing"⟩ [] rfl rfl rfl⟩

end caphandler
